import Mathlib

/-!
Verification of the price-tracker bot (`price_tracker_bot.py`).

Shallow embedding of the core logic:
  * `Item` models one row of the `products` table.
  * `get_product_name` / `check_price` model the two scraping functions over
    an abstract fetched page (`Fetched`).
  * `handle_link` models the subscription registrar.
  * `check_all_prices` models one run of the hourly price-check cycle.

External effects are passed as explicit oracles:
  * `lookup : String → Option ℚ` abstracts `check_price` composed with the
    HTTP fetch at cycle time (the Python `check_price` catches all of its own
    exceptions and returns `None`, so the cycle only ever sees an optional
    price).
  * `sendOk : Notification → Bool` tells whether `context.bot.send_message`
    succeeds (`false` means the call raises).
  * `updateOk : ℕ → Bool` tells whether the `UPDATE`/`commit` for a given row
    id succeeds (`false` means it raises).
Timestamps are abstract naturals; prices are rationals (the source uses
Python floats, read and compared but never arithmetically combined).
-/

/-- One row of the `products` table
(`id, user_id, product_url, product_name, last_price, last_checked`). -/
structure Item where
  id : ℕ
  user_id : ℕ
  product_url : String
  product_name : String
  last_price : ℚ
  last_checked : ℕ
deriving Repr, DecidableEq

/-- The content of one `send_message` call in the cycle's drop path: the
message text interpolates exactly the product name, the old price, the new
price and the product URL, and is addressed to `chat_id = user_id`. -/
structure Notification where
  chat_id : ℕ
  name : String
  old_price : ℚ
  new_price : ℚ
  url : String
deriving Repr, DecidableEq

/-- The message built at lines 155-160 of the source for item `it` when the
newly observed price is `p`. -/
def mkNotification (it : Item) (p : ℚ) : Notification :=
  ⟨it.user_id, it.product_name, it.last_price, p, it.product_url⟩

/-- Abstraction of one HTTP fetch of a product page:
either the request raises (`fetchError`: unreachable host, timeout, …) or a
page is returned, carrying the optional text of the `productTitle` span and
the optional text of the `a-offscreen` price span. -/
inductive Fetched where
  | fetchError
  | page (title : Option String) (priceText : Option String)
deriving Repr, DecidableEq

/-- Model of Python `str.strip()` with no argument: remove leading and
trailing whitespace. -/
def pyStrip (s : String) : String :=
  String.mk
    (((s.toList.dropWhile Char.isWhitespace).reverse.dropWhile
        Char.isWhitespace).reverse)

/-- Model of Python `str.replace(c, "")` for a one-character pattern, the
only shape the source uses: remove every occurrence of `c`. -/
def removeChar (c : Char) (s : String) : String :=
  String.mk (s.toList.filter (fun a => a ≠ c))

/-- Model of Python `float(s)` restricted to decimal literals: optional
sign, digits around an optional single decimal point, surrounding
whitespace stripped.  Exotic forms accepted by CPython (`inf`, `nan`,
exponents, underscore separators) are outside the model; every string the
model rejects makes `float` raise `ValueError` in the source. -/
def pyFloat (s : String) : Option ℚ :=
  let t := (pyStrip s).toList
  let (neg, body) : Bool × List Char :=
    match t with
    | '-' :: r => (true, r)
    | '+' :: r => (false, r)
    | r => (false, r)
  let intPart := body.takeWhile (fun c => c ≠ '.')
  let rest := body.dropWhile (fun c => c ≠ '.')
  let digitsVal : List Char → ℕ :=
    fun l => l.foldl (fun a c => 10 * a + (c.toNat - 48)) 0
  let build : ℕ → ℕ → ℚ := fun num scale =>
    Rat.divInt (if neg then -(num : ℤ) else (num : ℤ)) ((10 : ℤ) ^ scale)
  match rest with
  | [] =>
      if intPart ≠ [] ∧ intPart.all Char.isDigit then
        some (build (digitsVal intPart) 0)
      else none
  | _ :: frac =>
      if (intPart ≠ [] ∨ frac ≠ []) ∧ intPart.all Char.isDigit ∧
          frac.all Char.isDigit then
        some (build (digitsVal intPart * 10 ^ frac.length + digitsVal frac)
          frac.length)
      else none

/-- Result of running a Python `try` block: either the block returns a
value or an exception escapes it. -/
inductive PyOutcome (α : Type) where
  | ok (v : α)
  | raised
deriving Repr, DecidableEq

/-- The body of the `try` block of `get_product_name` (source lines
99-114): `requests.get` raises on a transport failure; a page whose
`productTitle` span is missing logs and returns `None`; otherwise the
stripped title text is returned. -/
def get_product_name_try : Fetched → PyOutcome (Option String)
  | .fetchError => .raised
  | .page none _ => .ok none
  | .page (some t) _ => .ok (some (pyStrip t))

/-- `get_product_name` (source lines 97-117): the `except` clause catches
every exception from the body and returns `None`. -/
def get_product_name (f : Fetched) : Option String :=
  match get_product_name_try f with
  | .ok v => v
  | .raised => none

/-- The body of the `try` block of `check_price` (source lines 121-139):
`requests.get` raises on a transport failure; a page whose `a-offscreen`
span is missing logs and returns `None`; otherwise the text is stripped,
the rupee sign and commas removed, and `float` either parses it or raises
`ValueError`. -/
def check_price_try : Fetched → PyOutcome (Option ℚ)
  | .fetchError => .raised
  | .page _ none => .ok none
  | .page _ (some txt) =>
      match pyFloat (removeChar ',' (removeChar '₹' (pyStrip txt))) with
      | some q => .ok (some q)
      | none => .raised

/-- `check_price` (source lines 119-142): the `except` clause catches every
exception from the body and returns `None`. -/
def check_price (f : Fetched) : Option ℚ :=
  match check_price_try f with
  | .ok v => v
  | .raised => none

/-- The registrar's reply to the subscriber, one constructor per distinct
user-facing message of `handle_link` (source lines 85-94). -/
inductive Reply where
  | added (name : String) (price : ℚ)
  | dbError
  | priceFetchFailed
  | parseFailed
deriving Repr, DecidableEq

/-- `handle_link` (source lines 67-94).  `fetch1` is the page fetch made by
`get_product_name`, `fetch2` the separate fetch made by `check_price`;
`insertOk` tells whether the `INSERT`/`commit` succeeds; `nextId` models the
`AUTOINCREMENT` id; the incoming message text is stripped to obtain the URL.
Python truthiness on `if product_name:` makes an empty name count as a
failure. -/
def handle_link (fetch1 fetch2 : String → Fetched) (insertOk : Bool)
    (user_id : ℕ) (text : String) (now nextId : ℕ) (s : List Item) :
    List Item × Reply :=
  let product_url := pyStrip text
  match get_product_name (fetch1 product_url) with
  | some product_name =>
      if product_name = "" then (s, .parseFailed)
      else
        match check_price (fetch2 product_url) with
        | some current_price =>
            if insertOk then
              (s ++ [⟨nextId, user_id, product_url, product_name,
                      current_price, now⟩],
               .added product_name current_price)
            else (s, .dbError)
        | none => (s, .priceFetchFailed)
  | none => (s, .parseFailed)

/-- `check_all_prices` (source lines 145-169).  Returns the store after the
run, the notifications delivered, and whether the loop ran to completion
(`false` means an exception escaped to the outer `except`, aborting the
remaining items; the per-item `commit` keeps earlier updates).  A failed
`send_message` raises before the `UPDATE`, so on `sendOk _ = false` neither
the notification nor the update happens for that item; a failed update
raises after the send, so on `updateOk _ = false` the notification was
already delivered but the row keeps its old price. -/
def check_all_prices (lookup : String → Option ℚ)
    (sendOk : Notification → Bool) (updateOk : ℕ → Bool) (now : ℕ) :
    List Item → List Item × List Notification × Bool
  | [] => ([], [], true)
  | it :: rest =>
    match lookup it.product_url with
    | some current_price =>
        if current_price < it.last_price then
          let n := mkNotification it current_price
          if sendOk n then
            if updateOk it.id then
              let r := check_all_prices lookup sendOk updateOk now rest
              ({ it with last_price := current_price, last_checked := now }
                 :: r.1, n :: r.2.1, r.2.2)
            else (it :: rest, [n], false)
          else (it :: rest, [], false)
        else
          let r := check_all_prices lookup sendOk updateOk now rest
          (it :: r.1, r.2.1, r.2.2)
    | none =>
        let r := check_all_prices lookup sendOk updateOk now rest
        (it :: r.1, r.2.1, r.2.2)

/-! ### Unfolding lemmas for one iteration of the cycle's loop -/

theorem cap_nil (lookup : String → Option ℚ) (sendOk : Notification → Bool)
    (updateOk : ℕ → Bool) (now : ℕ) :
    check_all_prices lookup sendOk updateOk now [] = ([], [], true) := rfl

theorem cap_cons_none (lookup : String → Option ℚ)
    (sendOk : Notification → Bool) (updateOk : ℕ → Bool) (now : ℕ)
    (it : Item) (rest : List Item) (h : lookup it.product_url = none) :
    check_all_prices lookup sendOk updateOk now (it :: rest) =
      (it :: (check_all_prices lookup sendOk updateOk now rest).1,
       (check_all_prices lookup sendOk updateOk now rest).2.1,
       (check_all_prices lookup sendOk updateOk now rest).2.2) := by
  simp only [check_all_prices, h]

theorem cap_cons_nodrop (lookup : String → Option ℚ)
    (sendOk : Notification → Bool) (updateOk : ℕ → Bool) (now : ℕ)
    (it : Item) (rest : List Item) (p : ℚ)
    (h : lookup it.product_url = some p) (hp : it.last_price ≤ p) :
    check_all_prices lookup sendOk updateOk now (it :: rest) =
      (it :: (check_all_prices lookup sendOk updateOk now rest).1,
       (check_all_prices lookup sendOk updateOk now rest).2.1,
       (check_all_prices lookup sendOk updateOk now rest).2.2) := by
  simp only [check_all_prices, h, if_neg (not_lt.mpr hp)]

theorem cap_cons_drop (lookup : String → Option ℚ)
    (sendOk : Notification → Bool) (updateOk : ℕ → Bool) (now : ℕ)
    (it : Item) (rest : List Item) (p : ℚ)
    (h : lookup it.product_url = some p) (hp : p < it.last_price)
    (hs : sendOk (mkNotification it p) = true)
    (hu : updateOk it.id = true) :
    check_all_prices lookup sendOk updateOk now (it :: rest) =
      ({ it with last_price := p, last_checked := now }
         :: (check_all_prices lookup sendOk updateOk now rest).1,
       mkNotification it p ::
         (check_all_prices lookup sendOk updateOk now rest).2.1,
       (check_all_prices lookup sendOk updateOk now rest).2.2) := by
  simp only [check_all_prices, h, if_pos hp, hs, hu, if_pos]

theorem cap_cons_sendFail (lookup : String → Option ℚ)
    (sendOk : Notification → Bool) (updateOk : ℕ → Bool) (now : ℕ)
    (it : Item) (rest : List Item) (p : ℚ)
    (h : lookup it.product_url = some p) (hp : p < it.last_price)
    (hs : sendOk (mkNotification it p) = false) :
    check_all_prices lookup sendOk updateOk now (it :: rest) =
      (it :: rest, [], false) := by
  simp only [check_all_prices, h, if_pos hp, hs, Bool.false_eq_true,
    if_neg, ite_false]

theorem cap_cons_updateFail (lookup : String → Option ℚ)
    (sendOk : Notification → Bool) (updateOk : ℕ → Bool) (now : ℕ)
    (it : Item) (rest : List Item) (p : ℚ)
    (h : lookup it.product_url = some p) (hp : p < it.last_price)
    (hs : sendOk (mkNotification it p) = true)
    (hu : updateOk it.id = false) :
    check_all_prices lookup sendOk updateOk now (it :: rest) =
      (it :: rest, [mkNotification it p], false) := by
  simp only [check_all_prices, h, if_pos hp, hs, hu, Bool.false_eq_true,
    if_neg, ite_false, if_true]

example : pyFloat "1299.00" = some 1299 := by decide
example : pyFloat "  12.5 " = some (Rat.divInt 25 2) := by decide
example : pyFloat "-3" = some (-3) := by decide
example : pyFloat "abc" = none := by decide
example : pyFloat "" = none := by decide
example : pyFloat "." = none := by decide
example : pyFloat "1.2.3" = none := by decide
example : check_price (.page none (some " ₹1,299.00 ")) = some 1299 := by
  decide

/-! ### Claims -/

/-- C2: if a cycle's lookup for a tracked item succeeds with a price
strictly below the stored `last_price`, exactly one notification is emitted
for that item — addressed to its subscriber and carrying the display name,
the old price, the new price, and the product URL — and afterwards the
store holds the new price (and the new check time) as that item's state.
Stated for the item at the head of the remaining work list, under
successful delivery and store write (their failure modes are the subject of
the failure-handling claims). -/
theorem drop_notifies_once_and_updates_store (lookup : String → Option ℚ)
    (sendOk : Notification → Bool) (updateOk : ℕ → Bool) (now : ℕ)
    (it : Item) (rest : List Item) (p : ℚ)
    (h : lookup it.product_url = some p) (hp : p < it.last_price)
    (hs : sendOk (mkNotification it p) = true)
    (hu : updateOk it.id = true) :
    check_all_prices lookup sendOk updateOk now (it :: rest) =
      ({ it with last_price := p, last_checked := now }
         :: (check_all_prices lookup sendOk updateOk now rest).1,
       mkNotification it p ::
         (check_all_prices lookup sendOk updateOk now rest).2.1,
       (check_all_prices lookup sendOk updateOk now rest).2.2)
    ∧ mkNotification it p =
        ⟨it.user_id, it.product_name, it.last_price, p, it.product_url⟩ :=
  ⟨cap_cons_drop lookup sendOk updateOk now it rest p h hp hs hu, rfl⟩

/-- Witness for C2 at a concrete store: price 100 drops to 90. -/
theorem drop_notifies_once_and_updates_store_witness :
    check_all_prices (fun _ => some 90) (fun _ => true) (fun _ => true) 5
        [⟨1, 7, "u", "W", 100, 0⟩] =
      ({ (⟨1, 7, "u", "W", 100, 0⟩ : Item) with
           last_price := 90, last_checked := 5 }
         :: (check_all_prices (fun _ => some 90) (fun _ => true)
               (fun _ => true) 5 []).1,
       mkNotification ⟨1, 7, "u", "W", 100, 0⟩ 90 ::
         (check_all_prices (fun _ => some 90) (fun _ => true)
            (fun _ => true) 5 []).2.1,
       (check_all_prices (fun _ => some 90) (fun _ => true)
          (fun _ => true) 5 []).2.2)
    ∧ mkNotification ⟨1, 7, "u", "W", 100, 0⟩ 90 =
        ⟨7, "W", 100, 90, "u"⟩ :=
  drop_notifies_once_and_updates_store (fun _ => some 90) (fun _ => true)
    (fun _ => true) 5 ⟨1, 7, "u", "W", 100, 0⟩ [] 90 rfl (by decide)
    rfl rfl

/-- C3: if a cycle's lookup for a tracked item fails, or succeeds with a
price at or above the stored `last_price`, that item's `last_price` and
`last_checked` are unchanged by the cycle and no notification fires for
it.  Stated for the item at the head of the remaining work list: the
result keeps the item verbatim and contributes no notification for it. -/
theorem no_drop_no_change (lookup : String → Option ℚ)
    (sendOk : Notification → Bool) (updateOk : ℕ → Bool) (now : ℕ)
    (it : Item) (rest : List Item)
    (h : lookup it.product_url = none ∨
      ∃ p, lookup it.product_url = some p ∧ it.last_price ≤ p) :
    check_all_prices lookup sendOk updateOk now (it :: rest) =
      (it :: (check_all_prices lookup sendOk updateOk now rest).1,
       (check_all_prices lookup sendOk updateOk now rest).2.1,
       (check_all_prices lookup sendOk updateOk now rest).2.2) := by
  rcases h with h | ⟨p, h, hp⟩
  · exact cap_cons_none lookup sendOk updateOk now it rest h
  · exact cap_cons_nodrop lookup sendOk updateOk now it rest p h hp

/-- Witness for C3 at a concrete store: observed price 100 is above the
stored price 90, so nothing changes and nothing is sent. -/
theorem no_drop_no_change_witness :
    check_all_prices (fun _ => some 100) (fun _ => true) (fun _ => true) 5
        [⟨1, 7, "u", "W", 90, 3⟩] =
      ((⟨1, 7, "u", "W", 90, 3⟩ : Item)
         :: (check_all_prices (fun _ => some 100) (fun _ => true)
               (fun _ => true) 5 []).1,
       (check_all_prices (fun _ => some 100) (fun _ => true)
          (fun _ => true) 5 []).2.1,
       (check_all_prices (fun _ => some 100) (fun _ => true)
          (fun _ => true) 5 []).2.2) :=
  no_drop_no_change (fun _ => some 100) (fun _ => true) (fun _ => true) 5
    ⟨1, 7, "u", "W", 90, 3⟩ []
    (Or.inr ⟨100, rfl, by decide⟩)

/-- C1 counterexample: the whole loop of `check_all_prices` sits inside one
`try`/`except`, so a notification-delivery failure on the first item aborts
the cycle.  Store: item 1 (subscriber 10) and item 2 (subscriber 20), both
at price 9; the lookup observes 5 for both; delivery fails exactly for
subscriber 10.  The run ends with an empty notification list, both items
unchanged and the completion flag `false` — item 2 was not processed — even
though item 2 had a price drop and, processed on its own, would have been
notified and updated. -/
theorem send_failure_aborts_remaining_items :
    check_all_prices (fun _ => some 5)
        (fun n => decide (n.chat_id ≠ 10)) (fun _ => true) 1
        [⟨1, 10, "a", "A", 9, 0⟩, ⟨2, 20, "b", "B", 9, 0⟩] =
      ([⟨1, 10, "a", "A", 9, 0⟩, ⟨2, 20, "b", "B", 9, 0⟩], [], false)
    ∧ (fun _ : String => some (5 : ℚ))
        (Item.product_url ⟨2, 20, "b", "B", 9, 0⟩) = some 5
    ∧ (5 : ℚ) < Item.last_price ⟨2, 20, "b", "B", 9, 0⟩
    ∧ (fun n : Notification => decide (n.chat_id ≠ 10))
        (mkNotification ⟨2, 20, "b", "B", 9, 0⟩ 5) = true
    ∧ check_all_prices (fun _ => some 5)
        (fun n => decide (n.chat_id ≠ 10)) (fun _ => true) 1
        [⟨2, 20, "b", "B", 9, 0⟩] =
      ([⟨2, 20, "b", "B", 5, 1⟩],
       [mkNotification ⟨2, 20, "b", "B", 9, 0⟩ 5], true) := by
  refine ⟨?_, rfl, by decide, by decide, ?_⟩ <;> decide

/-- C1 as amended: a *lookup* failure on one item does not abort the
remaining items — the item is skipped and the rest of the list is processed
exactly as it would have been — but a notification-delivery failure on one
item raises out of the loop into the cycle's single `except` handler,
leaving every later item unprocessed for that cycle (the process survives;
the flag `false` records the aborted run). -/
theorem cycle_failure_isolation_amended (lookup : String → Option ℚ)
    (sendOk : Notification → Bool) (updateOk : ℕ → Bool) (now : ℕ)
    (it : Item) (rest : List Item) (p : ℚ) :
    (lookup it.product_url = none →
      check_all_prices lookup sendOk updateOk now (it :: rest) =
        (it :: (check_all_prices lookup sendOk updateOk now rest).1,
         (check_all_prices lookup sendOk updateOk now rest).2.1,
         (check_all_prices lookup sendOk updateOk now rest).2.2))
    ∧ (lookup it.product_url = some p → p < it.last_price →
        sendOk (mkNotification it p) = false →
        check_all_prices lookup sendOk updateOk now (it :: rest) =
          (it :: rest, [], false)) :=
  ⟨cap_cons_none lookup sendOk updateOk now it rest,
   cap_cons_sendFail lookup sendOk updateOk now it rest p⟩

/-- Witness for the amended C1: a lookup failure on the first item leaves
the second item fully processed; a delivery failure on the first item
leaves the second item untouched. -/
theorem cycle_failure_isolation_amended_witness :
    check_all_prices (fun u => if u = "a" then none else some 5)
        (fun _ => true) (fun _ => true) 1
        [⟨1, 10, "a", "A", 9, 0⟩, ⟨2, 20, "b", "B", 9, 0⟩] =
      ((⟨1, 10, "a", "A", 9, 0⟩ : Item) ::
         (check_all_prices (fun u => if u = "a" then none else some 5)
            (fun _ => true) (fun _ => true) 1 [⟨2, 20, "b", "B", 9, 0⟩]).1,
       (check_all_prices (fun u => if u = "a" then none else some 5)
          (fun _ => true) (fun _ => true) 1 [⟨2, 20, "b", "B", 9, 0⟩]).2.1,
       (check_all_prices (fun u => if u = "a" then none else some 5)
          (fun _ => true) (fun _ => true) 1 [⟨2, 20, "b", "B", 9, 0⟩]).2.2)
    ∧ check_all_prices (fun _ => some 5) (fun _ => false) (fun _ => true) 1
        [⟨1, 10, "a", "A", 9, 0⟩, ⟨2, 20, "b", "B", 9, 0⟩] =
      ([⟨1, 10, "a", "A", 9, 0⟩, ⟨2, 20, "b", "B", 9, 0⟩], [], false) :=
  ⟨(cycle_failure_isolation_amended
      (fun u => if u = "a" then none else some 5) (fun _ => true)
      (fun _ => true) 1 ⟨1, 10, "a", "A", 9, 0⟩ [⟨2, 20, "b", "B", 9, 0⟩]
      5).1 (by decide),
   (cycle_failure_isolation_amended (fun _ => some 5) (fun _ => false)
      (fun _ => true) 1 ⟨1, 10, "a", "A", 9, 0⟩ [⟨2, 20, "b", "B", 9, 0⟩]
      5).2 rfl (by decide) rfl⟩

/-- C9: in the cycle's drop path the notification is sent before the store
is written, so when the `UPDATE` (or its commit) fails after a successful
send, the notification has already gone out, the item keeps its old
`last_price`, and the very same drop fires a second notification on the
next cycle over the resulting store. -/
theorem send_precedes_update_refire (lookup : String → Option ℚ)
    (sendOk : Notification → Bool) (updateOk : ℕ → Bool) (now now2 : ℕ)
    (it : Item) (rest : List Item) (p : ℚ)
    (h : lookup it.product_url = some p) (hp : p < it.last_price)
    (hs : sendOk (mkNotification it p) = true)
    (hu : updateOk it.id = false) :
    check_all_prices lookup sendOk updateOk now (it :: rest) =
      (it :: rest, [mkNotification it p], false)
    ∧ (check_all_prices lookup sendOk updateOk now2
        (check_all_prices lookup sendOk updateOk now (it :: rest)).1).2.1 =
      [mkNotification it p] := by
  have h1 := cap_cons_updateFail lookup sendOk updateOk now it rest p
    h hp hs hu
  refine ⟨h1, ?_⟩
  rw [h1]
  rw [cap_cons_updateFail lookup sendOk updateOk now2 it rest p h hp hs hu]

/-- Witness for C9: the failed write keeps price 9 in the store after the
drop to 5 was announced, and the second run announces the same drop again. -/
theorem send_precedes_update_refire_witness :
    check_all_prices (fun _ => some 5) (fun _ => true) (fun _ => false) 1
        [⟨1, 10, "a", "A", 9, 0⟩] =
      ([⟨1, 10, "a", "A", 9, 0⟩],
       [mkNotification ⟨1, 10, "a", "A", 9, 0⟩ 5], false)
    ∧ (check_all_prices (fun _ => some 5) (fun _ => true) (fun _ => false) 2
        (check_all_prices (fun _ => some 5) (fun _ => true) (fun _ => false)
          1 [⟨1, 10, "a", "A", 9, 0⟩]).1).2.1 =
      [mkNotification ⟨1, 10, "a", "A", 9, 0⟩ 5] :=
  send_precedes_update_refire (fun _ => some 5) (fun _ => true)
    (fun _ => false) 1 2 ⟨1, 10, "a", "A", 9, 0⟩ [] 5 rfl (by decide)
    rfl rfl

/-- C7: with delivery and store writes succeeding, running the cycle twice
in succession — the second run's lookups returning the same prices the
first run observed (same lookup function; the cycle never changes an
item's URL) — produces zero notifications on the second run, for every
starting store. -/
theorem second_cycle_silent (lookup : String → Option ℚ) (now now2 : ℕ)
    (s : List Item) :
    (check_all_prices lookup (fun _ => true) (fun _ => true) now2
       (check_all_prices lookup (fun _ => true) (fun _ => true) now
          s).1).2.1 = [] := by
  induction s with
  | nil => rfl
  | cons it rest ih =>
    cases hl : lookup it.product_url with
    | none =>
      simp only [cap_cons_none lookup (fun _ => true) (fun _ => true) now
        it rest hl]
      simp only [cap_cons_none lookup (fun _ => true) (fun _ => true) now2
        it _ hl]
      exact ih
    | some p =>
      rcases lt_or_le p it.last_price with hp | hp
      · simp only [cap_cons_drop lookup (fun _ => true) (fun _ => true)
          now it rest p hl hp rfl rfl]
        have h2 : lookup
            ({ it with last_price := p, last_checked := now } :
              Item).product_url = some p := hl
        have hp2 : ({ it with last_price := p, last_checked := now } :
            Item).last_price ≤ p := le_refl p
        simp only [cap_cons_nodrop lookup (fun _ => true) (fun _ => true)
          now2 _ _ p h2 hp2]
        exact ih
      · simp only [cap_cons_nodrop lookup (fun _ => true) (fun _ => true)
          now it rest p hl hp]
        simp only [cap_cons_nodrop lookup (fun _ => true) (fun _ => true)
          now2 it _ p hl hp]
        exact ih

/-- Position-wise effect of one cycle on stored prices: at every position
the resulting `last_price` is at most the one stored before the run. -/
theorem cap_getD_le (lookup : String → Option ℚ)
    (sendOk : Notification → Bool) (updateOk : ℕ → Bool) (now : ℕ) :
    ∀ (s : List Item) (i : ℕ) (d : Item),
      (((check_all_prices lookup sendOk updateOk now s).1.getD i
          d).last_price) ≤ ((s.getD i d).last_price) := by
  intro s
  induction s with
  | nil => intro i d; exact le_refl _
  | cons it rest ih =>
    intro i d
    cases hl : lookup it.product_url with
    | none =>
      simp only [cap_cons_none lookup sendOk updateOk now it rest hl]
      cases i with
      | zero => exact le_refl _
      | succ j => simp only [List.getD_cons_succ]; exact ih j d
    | some p =>
      rcases lt_or_le p it.last_price with hp | hp
      · cases hs : sendOk (mkNotification it p) with
        | false =>
          simp only [cap_cons_sendFail lookup sendOk updateOk now it rest
            p hl hp hs]
          exact le_refl _
        | true =>
          cases hu : updateOk it.id with
          | false =>
            simp only [cap_cons_updateFail lookup sendOk updateOk now it
              rest p hl hp hs hu]
            exact le_refl _
          | true =>
            simp only [cap_cons_drop lookup sendOk updateOk now it rest p
              hl hp hs hu]
            cases i with
            | zero => exact le_of_lt hp
            | succ j => simp only [List.getD_cons_succ]; exact ih j d
      · simp only [cap_cons_nodrop lookup sendOk updateOk now it rest p
          hl hp]
        cases i with
        | zero => exact le_refl _
        | succ j => simp only [List.getD_cons_succ]; exact ih j d

/-- The registrar only ever appends: whatever happens inside
`handle_link`, the resulting store is the old store followed by (zero or
one) new items, so existing rows are untouched. -/
theorem handle_link_append (fetch1 fetch2 : String → Fetched)
    (insertOk : Bool) (user : ℕ) (text : String) (now nextId : ℕ)
    (s : List Item) :
    ∃ t, (handle_link fetch1 fetch2 insertOk user text now nextId s).1 =
      s ++ t := by
  cases hgn : get_product_name (fetch1 (pyStrip text)) with
  | none => exact ⟨[], by simp [handle_link, hgn]⟩
  | some n =>
    by_cases he : n = ""
    · exact ⟨[], by simp [handle_link, hgn, he]⟩
    · cases hcp : check_price (fetch2 (pyStrip text)) with
      | none => exact ⟨[], by simp [handle_link, hgn, he, hcp]⟩
      | some q =>
        cases insertOk with
        | false => exact ⟨[], by simp [handle_link, hgn, he, hcp]⟩
        | true =>
          exact ⟨[⟨nextId, user, pyStrip text, n, q, now⟩],
            by simp [handle_link, hgn, he, hcp]⟩

/-- C4: a stored `last_price` is never increased by any operation.  The
cycle's write path only ever lowers it — position-wise the price after a
run is at most the price before, and whenever it differs it is strictly
smaller — and the registrar only appends new rows, leaving every existing
row (hence its `last_price`) unchanged. -/
theorem last_price_never_increases (lookup : String → Option ℚ)
    (sendOk : Notification → Bool) (updateOk : ℕ → Bool) (now : ℕ)
    (s : List Item) (i : ℕ) (d : Item) (fetch1 fetch2 : String → Fetched)
    (insertOk : Bool) (user : ℕ) (text : String) (now2 nextId : ℕ) :
    ((((check_all_prices lookup sendOk updateOk now s).1.getD i
        d).last_price) ≤ ((s.getD i d).last_price))
    ∧ ((((check_all_prices lookup sendOk updateOk now s).1.getD i
          d).last_price) ≠ ((s.getD i d).last_price) →
        (((check_all_prices lookup sendOk updateOk now s).1.getD i
            d).last_price) < ((s.getD i d).last_price))
    ∧ ∃ t, (handle_link fetch1 fetch2 insertOk user text now2 nextId
        s).1 = s ++ t :=
  ⟨cap_getD_le lookup sendOk updateOk now s i d,
   fun hne => lt_of_le_of_ne (cap_getD_le lookup sendOk updateOk now s i d)
     hne,
   handle_link_append fetch1 fetch2 insertOk user text now2 nextId s⟩

/-- Witness for C4: a concrete drop from 9 to 5 changes the stored price,
and the change is strictly downward. -/
theorem last_price_never_increases_witness :
    (((check_all_prices (fun _ => some 5) (fun _ => true) (fun _ => true)
        1 [⟨1, 7, "u", "W", 9, 0⟩]).1.getD 0
        ⟨0, 0, "", "", 0, 0⟩).last_price) <
      ((([⟨1, 7, "u", "W", 9, 0⟩] : List Item).getD 0
        ⟨0, 0, "", "", 0, 0⟩).last_price) :=
  (last_price_never_increases (fun _ => some 5) (fun _ => true)
    (fun _ => true) 1 [⟨1, 7, "u", "W", 9, 0⟩] 0 ⟨0, 0, "", "", 0, 0⟩
    (fun _ => Fetched.fetchError) (fun _ => Fetched.fetchError) true 0 ""
    0 0).2.1 (by decide)

/-- C5: the registrar resolves the display name first and consults the
price lookup only when that succeeds (a name failure yields the same
result whatever the price fetch would have returned); it leaves the store
unchanged on any lookup failure; on both successes (with the store write
itself succeeding) it appends exactly one item carrying the resolved name
and price; and any change to the store implies both resolutions succeeded.
A name that resolves to the empty string counts as a failure (Python
truthiness in `if product_name:`). -/
theorem registrar_writes_iff_lookups_succeed
    (fetch1 fetch2 fetch2' : String → Fetched) (insertOk : Bool)
    (user : ℕ) (text : String) (now nextId : ℕ) (s : List Item) :
    ((get_product_name (fetch1 (pyStrip text)) = none ∨
        get_product_name (fetch1 (pyStrip text)) = some "") →
      handle_link fetch1 fetch2 insertOk user text now nextId s =
        (s, Reply.parseFailed)
      ∧ handle_link fetch1 fetch2' insertOk user text now nextId s =
        handle_link fetch1 fetch2 insertOk user text now nextId s)
    ∧ (∀ n, get_product_name (fetch1 (pyStrip text)) = some n → n ≠ "" →
        check_price (fetch2 (pyStrip text)) = none →
        handle_link fetch1 fetch2 insertOk user text now nextId s =
          (s, Reply.priceFetchFailed))
    ∧ (∀ n p, get_product_name (fetch1 (pyStrip text)) = some n →
        n ≠ "" → check_price (fetch2 (pyStrip text)) = some p →
        insertOk = true →
        (handle_link fetch1 fetch2 insertOk user text now nextId s).1 =
          s ++ [⟨nextId, user, pyStrip text, n, p, now⟩])
    ∧ ((handle_link fetch1 fetch2 insertOk user text now nextId s).1 ≠ s →
        ∃ n p, get_product_name (fetch1 (pyStrip text)) = some n ∧
          n ≠ "" ∧ check_price (fetch2 (pyStrip text)) = some p ∧
          insertOk = true) := by
  refine ⟨?_, ?_, ?_, ?_⟩
  · rintro (h | h) <;> exact ⟨by simp [handle_link, h], by
      simp [handle_link, h]⟩
  · intro n hn hne hcp
    simp [handle_link, hn, hne, hcp]
  · intro n p hn hne hcp hins
    simp [handle_link, hn, hne, hcp, hins]
  · intro hne
    cases hgn : get_product_name (fetch1 (pyStrip text)) with
    | none => exact absurd (by simp [handle_link, hgn]) hne
    | some n =>
      by_cases he : n = ""
      · exact absurd (by simp [handle_link, hgn, he]) hne
      · cases hcp : check_price (fetch2 (pyStrip text)) with
        | none => exact absurd (by simp [handle_link, hgn, he, hcp]) hne
        | some p =>
          cases insertOk with
          | false => exact absurd (by simp [handle_link, hgn, he, hcp]) hne
          | true => exact ⟨n, p, rfl, he, rfl, rfl⟩


/-- Witness for C5: both lookups succeed on a concrete page and exactly
the new item is appended. -/
theorem registrar_writes_iff_lookups_succeed_witness :
    (handle_link (fun _ => Fetched.page (some "W") none)
        (fun _ => Fetched.page none (some "5")) true 7 "u" 3 4 []).1 =
      ([] : List Item) ++ [⟨4, 7, pyStrip "u", "W", 5, 3⟩] :=
  (registrar_writes_iff_lookups_succeed
    (fun _ => Fetched.page (some "W") none)
    (fun _ => Fetched.page none (some "5"))
    (fun _ => Fetched.page none none) true 7 "u" 3 4 []).2.2.1 "W" 5
    (by decide) (by decide) (by decide) rfl

/-- C6 counterexample: a transport error while fetching the name and a
page whose title span is missing produce the *same* user-facing reply
(`parseFailed`, the "Failed to parse the product" message), so the three
lookup-failure subtypes do not each get a distinct message category. -/
theorem lookup_failure_messages_collapse_cex :
    (handle_link (fun _ => Fetched.fetchError)
        (fun _ => Fetched.page none none) true 1 "u" 0 1 []).2 =
      Reply.parseFailed
    ∧ (handle_link (fun _ => Fetched.page none none)
        (fun _ => Fetched.page none none) true 1 "u" 0 1 []).2 =
      Reply.parseFailed := by
  decide

/-- C6 as amended: the registrar distinguishes only *two* failure-message
categories, by the stage that failed — every name-stage failure (transport
error or missing/empty title) gets the "failed to parse" reply, and every
price-stage failure (transport error, missing span, or unparseable text)
gets the distinct "failed to fetch the price" reply; within a stage,
transport errors are not distinguished from not-found. -/
theorem registrar_two_failure_message_categories
    (fetch1 fetch2 : String → Fetched) (insertOk : Bool) (user : ℕ)
    (text : String) (now nextId : ℕ) (s : List Item) :
    ((get_product_name (fetch1 (pyStrip text)) = none ∨
        get_product_name (fetch1 (pyStrip text)) = some "") →
      (handle_link fetch1 fetch2 insertOk user text now nextId s).2 =
        Reply.parseFailed)
    ∧ (∀ n, get_product_name (fetch1 (pyStrip text)) = some n → n ≠ "" →
        check_price (fetch2 (pyStrip text)) = none →
        (handle_link fetch1 fetch2 insertOk user text now nextId s).2 =
          Reply.priceFetchFailed)
    ∧ Reply.parseFailed ≠ Reply.priceFetchFailed := by
  refine ⟨?_, ?_, by decide⟩
  · rintro (h | h) <;> simp [handle_link, h]
  · intro n hn hne hcp
    simp [handle_link, hn, hne, hcp]

/-- Witness for the amended C6: a transport error during the name fetch
gets the parse-failure reply; a missing price span gets the price-failure
reply. -/
theorem registrar_two_failure_message_categories_witness :
    (handle_link (fun _ => Fetched.fetchError)
        (fun _ => Fetched.page none none) true 1 "u" 0 1 []).2 =
      Reply.parseFailed
    ∧ (handle_link (fun _ => Fetched.page (some "W") none)
        (fun _ => Fetched.page none none) true 1 "u" 0 1 []).2 =
      Reply.priceFetchFailed :=
  ⟨(registrar_two_failure_message_categories (fun _ => Fetched.fetchError)
      (fun _ => Fetched.page none none) true 1 "u" 0 1 []).1
      (Or.inl (by decide)),
   (registrar_two_failure_message_categories
      (fun _ => Fetched.page (some "W") none)
      (fun _ => Fetched.page none none) true 1 "u" 0 1 []).2.1 "W"
      (by decide) (by decide) (by decide)⟩

/-- C8: the registrar does not deduplicate.  Even when the store already
holds an item with the same subscriber and URL, a second successful
request appends a fresh independent row (with its own id) and reports
success — it neither updates nor rejects the existing row. -/
theorem duplicate_request_appends_second_item
    (fetch1 fetch2 : String → Fetched) (user : ℕ) (text : String)
    (now nextId : ℕ) (s : List Item) (n : String) (p : ℚ)
    (_hdup : ∃ old ∈ s, old.user_id = user ∧ old.product_url = pyStrip text)
    (hn : get_product_name (fetch1 (pyStrip text)) = some n) (hne : n ≠ "")
    (hp : check_price (fetch2 (pyStrip text)) = some p) :
    handle_link fetch1 fetch2 true user text now nextId s =
      (s ++ [⟨nextId, user, pyStrip text, n, p, now⟩],
       Reply.added n p) := by
  simp [handle_link, hn, hne, hp]

/-- Witness for C8: user 7 already tracks URL "u"; re-sending "u" appends
a second row for the same (subscriber, URL). -/
theorem duplicate_request_appends_second_item_witness :
    handle_link (fun _ => Fetched.page (some "W") none)
        (fun _ => Fetched.page none (some "5")) true 7 "u" 3 4
        [⟨1, 7, pyStrip "u", "Old", 3, 0⟩] =
      ([⟨1, 7, pyStrip "u", "Old", 3, 0⟩] ++
        [⟨4, 7, pyStrip "u", "W", 5, 3⟩], Reply.added "W" 5) :=
  duplicate_request_appends_second_item
    (fun _ => Fetched.page (some "W") none)
    (fun _ => Fetched.page none (some "5")) 7 "u" 3 4
    [⟨1, 7, pyStrip "u", "Old", 3, 0⟩] "W" 5
    ⟨⟨1, 7, pyStrip "u", "Old", 3, 0⟩, by decide, rfl, rfl⟩
    (by decide) (by decide) (by decide)

/-- C10: both scraping functions are total at their boundary.  Any
exception inside either `try` block (transport failure, `float` parse
failure) is caught and converted to `None`; in particular an unreachable
host, a missing title span, a missing price span, and a price text that
does not parse after stripping the currency sign and commas all yield
`None` rather than an exception for the caller. -/
theorem scrapers_return_none_on_failure (f : Fetched)
    (t pr : Option String) (txt : String) :
    (get_product_name_try f = PyOutcome.raised → get_product_name f = none)
    ∧ (check_price_try f = PyOutcome.raised → check_price f = none)
    ∧ get_product_name Fetched.fetchError = none
    ∧ check_price Fetched.fetchError = none
    ∧ get_product_name (Fetched.page none pr) = none
    ∧ check_price (Fetched.page t none) = none
    ∧ (pyFloat (removeChar ',' (removeChar '₹' (pyStrip txt))) = none →
        check_price (Fetched.page t (some txt)) = none) := by
  refine ⟨?_, ?_, rfl, rfl, rfl, ?_, ?_⟩
  · intro h; simp [get_product_name, h]
  · intro h; simp [check_price, h]
  · cases t <;> rfl
  · intro h
    cases t <;> simp [check_price, check_price_try, h]

/-- Witness for C10: the text "abc" does not parse as a float, and the
caller of `check_price` sees `None`, not an exception. -/
theorem scrapers_return_none_on_failure_witness :
    check_price (Fetched.page none (some "abc")) = none :=
  (scrapers_return_none_on_failure Fetched.fetchError none none
    "abc").2.2.2.2.2.2 (by decide)
